import Mathlib

/-!
Verification of the `SkipRenderOnClient` hydration-control utility
(the spec's `ConditionalHydrationGate`).

The component is embedded shallowly:

* the DOM state of the instance's container element is an `Option Bool`
  (`none` = container element absent from the document, `some b` = container
  present with `b` recording whether its child content is present);
* the per-instance `isFirst` ref cell of `useIsFirstRender` is a `Bool`
  threaded explicitly through renders;
* one render pass of the component body is the function `render`, which
  returns the declarative output, the updated ref, the (imperatively
  updated) DOM, the number of times the caller-supplied predicate
  `shouldRenderOnClient` was invoked, whether the imperative clear fired,
  and the ordered trace of observable events of the pass (predicate calls,
  the imperative clear, and the commit of the render output, which the
  host framework performs after the component body returns);
* a sequence of renders of one instance is folded by `run`.

The caller-supplied predicate is pure, so its value at a given render is a
`Bool` parameter; invocations are counted where the source calls it.
-/

namespace SkipRender

/-- DOM state of the instance's container element: `none` means the element
cannot be located in the document, `some b` means it is present and `b`
records whether its child content is present. -/
abbrev Dom := Option Bool

/-- Observable events of one render pass, in order of occurrence:
an invocation of the caller-supplied predicate, the imperative
content-clearing assignment, and the commit of the render output. -/
inductive REvent where
  | predCall
  | clearFire
  | commit
deriving DecidableEq, BEq, Repr

/-- Declarative output of one render pass: the wrapping container element
with its stable id, and whether the children subtree is present inside it. -/
structure Output where
  containerId : Nat
  childrenPresent : Bool
deriving DecidableEq, Repr

/-- The `useIsFirstRender` hook body: reads the instance's `isFirst` ref;
if it holds `true`, sets it to `false` and returns `true`; otherwise
returns `false`. The result pairs the returned value with the new ref
value. -/
def useIsFirstRender (isFirst : Bool) : Bool × Bool :=
  if isFirst then (true, false) else (false, isFirst)

/-- Initial value of the `isFirst` ref cell: `React.useRef(true)` at
instance creation. -/
def initialIsFirstRef : Bool := true

/-- The innerHTML-clearing assignment `el.innerHTML = ''` on a possibly
absent element: on a missing element (`none`) this is a runtime null
dereference, modelled as an error; on a present element it empties the
content. -/
def setInnerHTMLEmpty (dom : Dom) : Except String Dom :=
  match dom with
  | some _ => Except.ok (some false)
  | none => Except.error "TypeError: cannot set innerHTML of null"

/-- The clear step of the component body:
`const el = document.getElementById(id); if (el !== null) { el.innerHTML = ''; }`.
Locating the element is reading the `Dom`; the null guard makes a missing
container a silent no-op. -/
def clearStep (dom : Dom) : Except String Dom :=
  match dom with
  | some _ => setInnerHTMLEmpty dom
  | none => Except.ok dom

/-- Result of one render pass of `SkipRenderOnClient`. `wasFirst` is the
value `useIsFirstRender` returned during the pass, `newRef` the ref value
it left behind, `newDom` the DOM after the (possible) imperative clear,
`predCalls` how many times `shouldRenderOnClient` was invoked, and
`events` the ordered observable events of the pass. -/
structure RenderResult where
  output : Output
  wasFirst : Bool
  newRef : Bool
  newDom : Dom
  predCalls : Nat
  clearFired : Bool
  events : List REvent
deriving DecidableEq, Repr

/-- One render pass of the `SkipRenderOnClient` component body, translated
statement by statement:

* `idv` is the stable per-instance id from `React.useId()`;
* `isClient` is `typeof window !== 'undefined'`;
* `pred` is the (pure) value of `shouldRenderOnClient()` at this render;
* `ref` is the current `isFirst` ref value, `dom` the current DOM state.

The guard `isClient && isFirstRender && shouldRenderOnClient() === false`
short-circuits, so the predicate is invoked in the guard exactly when
`isClient && isFirstRender`; inside the guard the clear step runs (the
assignment fires only when the element is found). Then
`shouldRender = isClient ? shouldRenderOnClient() : true` invokes the
predicate again exactly when `isClient`, and the container is returned
with `{shouldRender && children}`; the host framework commits that output
after the body returns. -/
def render (idv : Nat) (isClient : Bool) (pred : Bool) (ref : Bool) (dom : Dom) :
    RenderResult :=
  let fr := useIsFirstRender ref
  let isFirstRender := fr.1
  let refAfter := fr.2
  let guardEvaluatesPred := isClient && isFirstRender
  let guard := guardEvaluatesPred && (pred == false)
  let domAfter :=
    if guard then
      match dom with
      | some _ => (some false : Dom)
      | none => dom
    else dom
  let fired := guard && dom.isSome
  let shouldRender := if isClient then pred else true
  { output := { containerId := idv, childrenPresent := shouldRender }
  , wasFirst := isFirstRender
  , newRef := refAfter
  , newDom := domAfter
  , predCalls := (if guardEvaluatesPred then 1 else 0) + (if isClient then 1 else 0)
  , clearFired := fired
  , events :=
      (if guardEvaluatesPred then [REvent.predCall] else [])
        ++ (if fired then [REvent.clearFire] else [])
        ++ (if isClient then [REvent.predCall] else [])
        ++ [REvent.commit] }

/-- A sequence of render passes of one instance: each input is the pair
(isClient, predicate value at that render); the ref and the DOM thread
through. -/
def run (idv : Nat) (inputs : List (Bool × Bool)) (ref : Bool) (dom : Dom) :
    List RenderResult :=
  match inputs with
  | [] => []
  | (c, p) :: rest =>
    let r := render idv c p ref dom
    r :: run idv rest r.newRef r.newDom

/-- After any render pass the `isFirst` ref holds `false`. -/
theorem render_newRef_false (idv : Nat) (c p ref : Bool) (dom : Dom) :
    (render idv c p ref dom).newRef = false := by
  cases ref <;> simp [render, useIsFirstRender]

/-- A render pass whose ref is already `false` observes a non-first render,
fires no clear, and leaves the DOM untouched. -/
theorem render_steady (idv : Nat) (c p : Bool) (dom : Dom) :
    (render idv c p false dom).wasFirst = false ∧
      (render idv c p false dom).clearFired = false ∧
      (render idv c p false dom).newDom = dom := by
  simp [render, useIsFirstRender]

/-- Every render of a run started with ref `false` observes a non-first
render and fires no clear. -/
theorem run_from_false (idv : Nat) (inputs : List (Bool × Bool)) (dom : Dom) :
    ∀ r ∈ run idv inputs false dom, r.wasFirst = false ∧ r.clearFired = false := by
  induction inputs generalizing dom with
  | nil => intro r hr; simp [run] at hr
  | cons x rest ih =>
    intro r hr
    obtain ⟨c, p⟩ := x
    simp only [run, List.mem_cons] at hr
    rcases hr with h | h
    · subst h
      exact ⟨(render_steady idv c p dom).1, (render_steady idv c p dom).2.1⟩
    · have := render_newRef_false idv c p false dom
      rw [this] at h
      exact ih _ r h

/-- After every render of any run the `isFirst` ref holds `false`. -/
theorem run_newRef_false (idv : Nat) (inputs : List (Bool × Bool)) (ref : Bool)
    (dom : Dom) : ∀ r ∈ run idv inputs ref dom, r.newRef = false := by
  induction inputs generalizing ref dom with
  | nil => intro r hr; simp [run] at hr
  | cons x rest ih =>
    intro r hr
    obtain ⟨c, p⟩ := x
    simp only [run, List.mem_cons] at hr
    rcases hr with h | h
    · subst h
      exact render_newRef_false idv c p ref dom
    · exact ih _ _ r h

/-- The length of a run equals the length of its input list. -/
theorem run_length (idv : Nat) (inputs : List (Bool × Bool)) (ref : Bool) (dom : Dom) :
    (run idv inputs ref dom).length = inputs.length := by
  induction inputs generalizing ref dom with
  | nil => simp [run]
  | cons x rest ih =>
    obtain ⟨c, p⟩ := x
    simp [run, ih]

/-- When the imperative clear fires during a render pass, the pass's event
trace is exactly: a predicate call (in the guard), the clear, a predicate
call (computing shouldRender), the commit. -/
theorem render_events_of_clearFired (idv : Nat) (c p ref : Bool) (dom : Dom)
    (h : (render idv c p ref dom).clearFired = true) :
    (render idv c p ref dom).events =
      [REvent.predCall, REvent.clearFire, REvent.predCall, REvent.commit] := by
  cases c <;> cases p <;> cases ref <;> rcases dom with _ | b <;>
    simp_all [render, useIsFirstRender]

/-- C2: For every value of the predicate `shouldRenderOnClient`, a render of
`SkipRenderOnClient` in a server (non-interactive) context produces the
container (carrying the instance id) with the children present, whatever
the ref state and DOM. -/
theorem C2_server_renders_children (idv : Nat) (p ref : Bool) (dom : Dom) :
    (render idv false p ref dom).output =
      { containerId := idv, childrenPresent := true } := by
  cases ref <;> simp [render, useIsFirstRender]

/-- C3: After the first client render of an instance (ref initial, DOM as the
server produced it, content present): if the predicate evaluated false the
container's content is empty, and if it evaluated true the content is the
full children subtree — both in the declarative output and in the DOM. -/
theorem C3_after_first_client_render (idv : Nat) (p : Bool) :
    (render idv true p initialIsFirstRef (some true)).output.childrenPresent = p ∧
      (render idv true p initialIsFirstRef (some true)).newDom = some p := by
  cases p <;> simp [render, useIsFirstRender, initialIsFirstRef]

/-- C6: In a server execution context the caller-supplied predicate is never
invoked: zero invocations are counted and no predicate-call event occurs,
for every render (any ref state, any DOM) of every instance. -/
theorem C6_server_never_calls_predicate (idv : Nat) (p ref : Bool) (dom : Dom) :
    (render idv false p ref dom).predCalls = 0 ∧
      REvent.predCall ∉ (render idv false p ref dom).events := by
  cases ref <;> simp [render, useIsFirstRender]

/-- C1 counterexample: with the predicate false, the first client render of
an instance (initial ref, server-produced DOM) omits the children while
the server render includes them — the two outputs are not identical, so
the claim fails at this predicate value. -/
theorem C1_counterexample :
    (render 0 true false initialIsFirstRef (some true)).output ≠
      (render 0 false false initialIsFirstRef (some true)).output := by
  decide

/-- C1 (amended): the first client render's output contains the children
exactly when the predicate is true, and it is identical to the server
render's output for the same props exactly when the predicate is true;
when the predicate is false the children are omitted from the first
client render (hydration consistency being ensured instead by the
pre-render imperative clear of the server-produced DOM). -/
theorem C1_first_client_render_matches_iff_pred (idv : Nat) (p : Bool) :
    (render idv true p initialIsFirstRef (some true)).output.childrenPresent = p ∧
      ((render idv true p initialIsFirstRef (some true)).output =
          (render idv false p initialIsFirstRef (some true)).output ↔ p = true) := by
  cases p <;> simp [render, useIsFirstRender, initialIsFirstRef]

/-- C4: On every client render after the first (ref already flipped), the
output contains the children iff the predicate evaluates true on that
render, no clear fires, no clear event occurs and the DOM is left
untouched; moreover flipping the predicate false-to-true across the first
two client renders (with the first-render clear having fired) makes the
content reappear, and flipping true-to-false removes it with no clear
firing on the second render. -/
theorem C4_steady_state_follows_predicate (idv : Nat) (p : Bool) (dom : Dom) :
    ((render idv true p false dom).output.childrenPresent = p ∧
        (render idv true p false dom).clearFired = false ∧
        REvent.clearFire ∉ (render idv true p false dom).events ∧
        (render idv true p false dom).newDom = dom) ∧
      (run idv [(true, false), (true, true)] initialIsFirstRef (some true)).map
          (fun r => r.output.childrenPresent) = [false, true] ∧
      (run idv [(true, true), (true, false)] initialIsFirstRef (some true)).map
          (fun r => r.output.childrenPresent) = [true, false] ∧
      (run idv [(true, true), (true, false)] initialIsFirstRef (some true)).map
          (fun r => r.clearFired) = [false, false] := by
  refine ⟨?_, ?_, ?_, ?_⟩
  · cases p <;> simp [render, useIsFirstRender]
  · simp [run, render, useIsFirstRender, initialIsFirstRef]
  · simp [run, render, useIsFirstRender, initialIsFirstRef]
  · simp [run, render, useIsFirstRender, initialIsFirstRef]

/-- C5: Over any sequence of renders of one instance (started at instance
creation), the imperative clear fires at most once; and whenever it fires
at position `i`, that position is the instance's first render, which is a
client render whose predicate evaluated false, on a then-locatable
container. -/
theorem C5_clear_at_most_once (idv : Nat) (inputs : List (Bool × Bool)) (dom : Dom) :
    ((run idv inputs initialIsFirstRef dom).countP (fun r => r.clearFired)) ≤ 1 ∧
      ∀ i r, (run idv inputs initialIsFirstRef dom).get? i = some r →
        r.clearFired = true →
          i = 0 ∧ inputs.head? = some (true, false) ∧ dom.isSome = true := by
  constructor
  · cases inputs with
    | nil => simp [run, initialIsFirstRef]
    | cons x rest =>
      obtain ⟨c, p⟩ := x
      simp only [initialIsFirstRef]
      simp only [run]
      rw [List.countP_cons]
      have hall := run_from_false idv rest (render idv c p true dom).newDom
      rw [render_newRef_false idv c p true dom]
      have hz : (run idv rest false (render idv c p true dom).newDom).countP
          (fun r => r.clearFired) = 0 := by
        rw [List.countP_eq_zero]
        intro r hr
        simp [(hall r hr).2]
      rw [hz]
      split <;> simp
  · intro i r hget hfire
    cases inputs with
    | nil => simp [run, initialIsFirstRef] at hget
    | cons x rest =>
      obtain ⟨c, p⟩ := x
      simp only [initialIsFirstRef] at hget ⊢
      simp only [run] at hget
      rw [render_newRef_false idv c p true dom] at hget
      cases i with
      | succ j =>
        exfalso
        simp only [List.get?_cons_succ] at hget
        have hmem := List.get?_mem hget
        have := (run_from_false idv rest (render idv c p true dom).newDom r hmem).2
        rw [this] at hfire
        exact Bool.false_ne_true hfire
      | zero =>
        simp only [List.get?_cons_zero, Option.some.injEq] at hget
        subst hget
        refine ⟨rfl, ?_, ?_⟩
        · cases c <;> cases p <;> cases dom <;>
            simp_all [render, useIsFirstRender]
        · cases c <;> cases p <;> cases dom <;>
            simp_all [render, useIsFirstRender]

/-- C5 witness: a one-render client sequence with predicate false and a
present container fires the clear at position 0, and the theorem's
conclusions hold there. -/
theorem C5_clear_at_most_once_witness :
    (0 : Nat) = 0 ∧ ([((true : Bool), (false : Bool))]).head? = some (true, false) ∧
      ((some true : Dom)).isSome = true :=
  (C5_clear_at_most_once 0 [(true, false)] (some true)).2 0
    (render 0 true false true (some true)) (by decide) (by decide)

/-- C7: The clear step never throws (it always returns normally); on a
missing container it is a silent no-op leaving the DOM unchanged;
repeating it (the container now missing or already empty) returns the
same DOM again; and the DOM state at clear-time never influences the
component's ref state. -/
theorem C7_clear_step_noop_idempotent :
    (∀ dom : Dom, ∃ d, clearStep dom = Except.ok d) ∧
      clearStep (none : Dom) = Except.ok none ∧
      (∀ dom : Dom, (clearStep dom).bind clearStep = clearStep dom) ∧
      (∀ (idv : Nat) (c p ref : Bool) (d d' : Dom),
        (render idv c p ref d).newRef = (render idv c p ref d').newRef) := by
  refine ⟨?_, rfl, ?_, ?_⟩
  · intro dom
    cases dom <;> simp [clearStep, setInnerHTMLEmpty]
  · intro dom
    cases dom <;> simp [clearStep, setInnerHTMLEmpty, Except.bind]
  · intro idv c p ref d d'
    rw [render_newRef_false, render_newRef_false]

/-- C8: The per-instance first-render flag is initialized to `true` (first)
at instance creation; over any sequence of renders it is observed `true`
exactly at the first render of the sequence and `false` at every later
one, and after every render it holds `false` — it is never reset. -/
theorem C8_first_render_flag (idv : Nat) (inputs : List (Bool × Bool)) (dom : Dom) :
    initialIsFirstRef = true ∧
      ∀ i r, (run idv inputs initialIsFirstRef dom).get? i = some r →
        r.wasFirst = decide (i = 0) ∧ r.newRef = false := by
  refine ⟨rfl, ?_⟩
  intro i r hget
  have hnew : r.newRef = false :=
    run_newRef_false idv inputs initialIsFirstRef dom r (List.get?_mem hget)
  refine ⟨?_, hnew⟩
  cases inputs with
  | nil => simp [run, initialIsFirstRef] at hget
  | cons x rest =>
    obtain ⟨c, p⟩ := x
    simp only [initialIsFirstRef] at hget
    simp only [run] at hget
    rw [render_newRef_false idv c p true dom] at hget
    cases i with
    | zero =>
      simp only [List.get?_cons_zero, Option.some.injEq] at hget
      subst hget
      simp [render, useIsFirstRender]
    | succ j =>
      simp only [List.get?_cons_succ] at hget
      have hmem := List.get?_mem hget
      have hfalse := (run_from_false idv rest (render idv c p true dom).newDom r hmem).1
      simp [hfalse]

/-- C8 witness: a two-render sequence observes the flag `false` on the
second (index 1) render, with the ref `false` afterwards. -/
theorem C8_first_render_flag_witness :
    (render 0 true true false (some true)).wasFirst = decide ((1 : Nat) = 0) ∧
      (render 0 true true false (some true)).newRef = false :=
  (C8_first_render_flag 0 [(true, true), (true, true)] (some true)).2 1
    (render 0 true true false (some true)) (by decide)

/-- C9 counterexample: on the first client render with the predicate false
and the container present, the clear fires, and in the pass's event trace
the clear occurs strictly before the commit of the render output — not
after it as claimed (the commit does not precede the clear). -/
theorem C9_counterexample :
    (render 0 true false initialIsFirstRef (some true)).events =
        [REvent.predCall, REvent.clearFire, REvent.predCall, REvent.commit] ∧
      ¬((render 0 true false initialIsFirstRef (some true)).events.indexOf
            REvent.commit <
          (render 0 true false initialIsFirstRef (some true)).events.indexOf
            REvent.clearFire) := by
  decide

/-- C9 (amended): whenever the imperative clear fires during a render pass,
it occurs strictly before the commit of that pass's output in the event
trace: the clear manipulates the server-produced DOM before the first
client render's output is committed, never after it. -/
theorem C9_clear_before_commit (idv : Nat) (c p ref : Bool) (dom : Dom) :
    (render idv c p ref dom).clearFired = true →
      (render idv c p ref dom).events.indexOf REvent.clearFire <
        (render idv c p ref dom).events.indexOf REvent.commit := by
  intro h
  rw [render_events_of_clearFired idv c p ref dom h]
  decide

/-- C9 witness: on the concrete first client render with predicate false and
a present container the clear fires, and its event's index precedes the
commit's. -/
theorem C9_clear_before_commit_witness :
    (render 0 true false true (some true)).events.indexOf REvent.clearFire <
      (render 0 true false true (some true)).events.indexOf REvent.commit :=
  C9_clear_before_commit 0 true false true (some true) (by decide)

end SkipRender
